import Mathlib

/-!
Shallow embedding of the prompt-aggregation server of this repository
(the Express `server` file, present in two variants that differ only in
logging, in the wording of the no-keys error message, and in the 500
response carrying a stack field; all behaviour relevant to the claims
below is identical in both, and where the variants differ textually the
longer logging variant is followed).

Modelling conventions:
* JavaScript strings are modelled as Lean `String`; `s.slice(0, n)` as
  taking the first `n` characters and `s.length` as the character count
  (the UTF-16 vs character distinction is immaterial to the claims).
* Environment variables are `Option String`; the source guards each
  provider block with plain truthiness (`if (process.env.X_KEY)`), so an
  unset variable and an empty string both skip the provider.
* A provider call is an oracle `CallOutcome`: `throws msg` when `fetch`
  or `r.json()` rejects (network failure or undecodable body), and
  `ok status body` when a decoded JSON body was obtained.  `fetch` does
  not reject on a non-2xx status, and the source never reads `r.status`
  or `r.ok`, so the status is carried but unread.
* The handler is a pure function of the oracle, the environment, the
  clock (`new Date().getTime()`), the request prompt, and the external
  rendering collaborator (`render`), and it additionally reports the
  sequence of call start/settle events and the deck it built, so that
  claims about call ordering and about no document being built are
  statable.
-/

/-- JSON values, as produced by `await r.json()` and consumed by
`JSON.stringify`. -/
inductive Json where
  | null
  | bool (b : Bool)
  | num (n : Int)
  | str (s : String)
  | arr (elems : List Json)
  | obj (fields : List (String × Json))

/-- JavaScript truthiness of a JSON value (`null`, `false`, `0` and the
empty string are falsy; arrays and objects are always truthy). -/
def Json.truthy : Json → Bool
  | Json.null => false
  | Json.bool b => b
  | Json.num n => n != 0
  | Json.str s => s != ""
  | Json.arr _ => true
  | Json.obj _ => true

/-- Truthiness of an optional JSON value; `undefined` is falsy. -/
def truthyOpt : Option Json → Bool
  | none => false
  | some v => v.truthy

/-- Truthiness of an optional string, used both for environment
variables (`if (process.env.OPENAI_API_KEY)`) and for the request
prompt (`if (!prompt)`): unset and empty are falsy. -/
def strTruthy : Option String → Bool
  | none => false
  | some s => s != ""

/-- Lower-case hexadecimal digit, for JSON string escapes of control
characters. -/
def hexDigit (n : Nat) : Char :=
  if n < 10 then Char.ofNat (48 + n) else Char.ofNat (87 + n)

/-- Escaping of one character inside a JSON string literal, following
`JSON.stringify`. -/
def escapeChar (c : Char) : String :=
  if c = '"' then "\\\""
  else if c = '\\' then "\\\\"
  else if c = '\n' then "\\n"
  else if c = '\r' then "\\r"
  else if c = '\t' then "\\t"
  else if c.toNat = 8 then "\\b"
  else if c.toNat = 12 then "\\f"
  else if c.toNat < 32 then
    String.mk ['\\', 'u', '0', '0', hexDigit (c.toNat / 16), hexDigit (c.toNat % 16)]
  else String.singleton c

/-- Quoted JSON string literal. -/
def jsonQuote (s : String) : String :=
  "\"" ++ String.join (s.data.map escapeChar) ++ "\""

mutual

/-- Serialization of a JSON value with a two-space indentation gap, the
translation of `JSON.stringify(v, null, 2)`; `ind` is the indentation
of the surrounding context. -/
def stringifyV (ind : String) : Json → String
  | Json.null => "null"
  | Json.bool b => if b then "true" else "false"
  | Json.num n => toString n
  | Json.str s => jsonQuote s
  | Json.arr [] => "[]"
  | Json.arr (e :: es) =>
      "[\n" ++ String.intercalate ",\n" (stringifyElems (ind ++ "  ") (e :: es))
        ++ "\n" ++ ind ++ "]"
  | Json.obj [] => "\x7b\x7d"
  | Json.obj (f :: fs) =>
      "\x7b\n" ++ String.intercalate ",\n" (stringifyFields (ind ++ "  ") (f :: fs))
        ++ "\n" ++ ind ++ "\x7d"

/-- Serialized array elements, one line each at indentation `ind`. -/
def stringifyElems (ind : String) : List Json → List String
  | [] => []
  | e :: es => (ind ++ stringifyV ind e) :: stringifyElems ind es

/-- Serialized object members, one line each at indentation `ind`. -/
def stringifyFields (ind : String) : List (String × Json) → List String
  | [] => []
  | (k, v) :: fs =>
      (ind ++ jsonQuote k ++ ": " ++ stringifyV ind v) :: stringifyFields ind fs

end

/-- Top-level pretty-printing, `JSON.stringify(v, null, 2)`. -/
def stringify2 (j : Json) : String := stringifyV "" j

/-- Optional-chaining property access `x?.k`: `undefined` and `null`
short-circuit to `undefined`, a missing key or a non-object yields
`undefined`. -/
def jGet (k : String) : Option Json → Option Json
  | some (Json.obj fields) => (fields.find? (fun f => f.1 == k)).map (fun f => f.2)
  | _ => none

/-- Optional-chaining index access `x?.[i]`. -/
def jIdx (i : Nat) : Option Json → Option Json
  | some (Json.arr elems) => elems.get? i
  | _ => none

/-- Success-path extraction for OpenAI,
`j.choices?.[0]?.message?.content`: the first access is unguarded, so a
`null` body throws (caught by the provider block's catch); every later
step is optional-chained. -/
def extractChatgpt : Json → Except String (Option Json)
  | Json.null => Except.error "Cannot read properties of null"
  | j => Except.ok (jGet "content" (jGet "message" (jIdx 0 (jGet "choices" (some j)))))

/-- Success-path extraction for Gemini,
`j.candidates?.[0]?.content?.parts?.[0]?.text`. -/
def extractGemini : Json → Except String (Option Json)
  | Json.null => Except.error "Cannot read properties of null"
  | j =>
      Except.ok (jGet "text" (jIdx 0 (jGet "parts"
        (jGet "content" (jIdx 0 (jGet "candidates" (some j)))))))

/-- Success-path extraction for Claude, `j.content?.[0]?.text`. -/
def extractClaude : Json → Except String (Option Json)
  | Json.null => Except.error "Cannot read properties of null"
  | j => Except.ok (jGet "text" (jIdx 0 (jGet "content" (some j))))

/-- Success-path extraction for Perplexity,
`j.choices?.[0]?.message?.content` (same shape as OpenAI). -/
def extractPerplexity : Json → Except String (Option Json)
  | Json.null => Except.error "Cannot read properties of null"
  | j => Except.ok (jGet "content" (jGet "message" (jIdx 0 (jGet "choices" (some j)))))

/-- Outcome of one provider call, as seen by a provider block:
`throws msg` when `fetch` or `r.json()` rejects (network failure or a
body that fails to decode), `ok status body` when a JSON body was
decoded.  `fetch` resolves for any HTTP status, and the source never
reads the status, so it is carried but unread. -/
inductive CallOutcome where
  | throws (msg : String)
  | ok (status : Nat) (body : Json)

/-- Result value recorded for one provider block, the translation of

    try ... const j = await r.json();
      results.p = extract(j) || JSON.stringify(j, null, 2)
    catch (e) results.p = `Error: $\x7be.message\x7d`

A thrown error (network, decode, or the unguarded access on a `null`
body) records `"Error: " ++ msg`; otherwise the extracted value is
recorded when truthy and the pretty-printed whole body when the
extraction is absent or falsy. -/
def providerResult (extract : Json → Except String (Option Json)) :
    CallOutcome → Json
  | CallOutcome.throws msg => Json.str ("Error: " ++ msg)
  | CallOutcome.ok _ j =>
      match extract j with
      | Except.error msg => Json.str ("Error: " ++ msg)
      | Except.ok ext =>
          if truthyOpt ext then ext.getD Json.null else Json.str (stringify2 j)

/-- Process configuration read from environment variables. -/
structure Env where
  OPENAI_API_KEY : Option String := none
  GEMINI_API_KEY : Option String := none
  CLAUDE_API_KEY : Option String := none
  PERPLEXITY_API_KEY : Option String := none
  PORT : Option String := none

/-- Oracle giving each provider call's outcome for one request. -/
structure Outcomes where
  chatgpt : CallOutcome
  gemini : CallOutcome
  claude : CallOutcome
  perplexity : CallOutcome

/-- Result mapping built by the four provider blocks, in source order:
a key is inserted exactly when the provider's credential is truthy. -/
def buildResults (env : Env) (oc : Outcomes) : List (String × Json) :=
  (if strTruthy env.OPENAI_API_KEY then
    [("chatgpt", providerResult extractChatgpt oc.chatgpt)] else [])
  ++ (if strTruthy env.GEMINI_API_KEY then
    [("gemini", providerResult extractGemini oc.gemini)] else [])
  ++ (if strTruthy env.CLAUDE_API_KEY then
    [("claude", providerResult extractClaude oc.claude)] else [])
  ++ (if strTruthy env.PERPLEXITY_API_KEY then
    [("perplexity", providerResult extractPerplexity oc.perplexity)] else [])

/-- Providers whose credential is configured, in the order the source
attempts them. -/
def attemptedProviders (env : Env) : List String :=
  (if strTruthy env.OPENAI_API_KEY then ["chatgpt"] else [])
  ++ (if strTruthy env.GEMINI_API_KEY then ["gemini"] else [])
  ++ (if strTruthy env.CLAUDE_API_KEY then ["claude"] else [])
  ++ (if strTruthy env.PERPLEXITY_API_KEY then ["perplexity"] else [])

/-- Network events of the handler: the issuing of a provider call and
its reaching a terminal outcome. -/
inductive Ev where
  | callStart (provider : String)
  | callSettle (provider : String)
deriving DecidableEq

/-- Event trace of the provider section of the handler.  Each block is
`const r = await fetch(...); const j = await r.json()` inline in the
handler body, so a configured provider's call is issued and awaited to
a terminal outcome before the next block runs: the trace is the
per-provider start/settle pairs in source order. -/
def providerEvents (env : Env) : List Ev :=
  (if strTruthy env.OPENAI_API_KEY then
    [Ev.callStart "chatgpt", Ev.callSettle "chatgpt"] else [])
  ++ (if strTruthy env.GEMINI_API_KEY then
    [Ev.callStart "gemini", Ev.callSettle "gemini"] else [])
  ++ (if strTruthy env.CLAUDE_API_KEY then
    [Ev.callStart "claude", Ev.callSettle "claude"] else [])
  ++ (if strTruthy env.PERPLEXITY_API_KEY then
    [Ev.callStart "perplexity", Ev.callSettle "perplexity"] else [])

/-- Options of one `addText` call (the fields the source passes). -/
structure TextOpts where
  x : Rat
  y : Rat
  w : Rat
  h : Option Rat := none
  fontSize : Nat
  bold : Bool := false
  color : String
  align : Option String := none
  fontFace : Option String := none
  wrap : Bool := false

/-- One slide descriptor: background colour and the `addText` calls in
order. -/
structure Slide where
  background : String
  texts : List (String × TextOpts)

/-- Texts of a slide, in order of the `addText` calls. -/
def slideTexts (s : Slide) : List String := s.texts.map Prod.fst

/-- Translation of `s.slice(0, n)` on a JavaScript string. -/
def jsSlice (s : String) (n : Nat) : String := String.mk (s.data.take n)

/-- Title slide: dark background, centred heading, and the subtitle
`Prompt: $\x7bprompt.slice(0, 100)\x7d...` with the ellipsis appended
unconditionally. -/
def titleSlide (prompt : String) : Slide :=
  { background := "1F2937",
    texts := [
      ("AI Aggregation Results",
        { x := 0.5, y := 2.5, w := 9, h := some 1.5, fontSize := 48,
          bold := true, color := "FFFFFF", align := some "center" }),
      ("Prompt: " ++ jsSlice prompt 100 ++ "...",
        { x := 0.5, y := 4.2, w := 9, h := some 1, fontSize := 18,
          color := "D1D5DB", align := some "center", fontFace := some "Arial" })] }

/-- Translation of `k.toUpperCase()` on a JavaScript string,
character by character. -/
def jsToUpper (s : String) : String := String.mk (s.data.map Char.toUpper)

/-- Result text of a mapping value, the translation of
`typeof v === "string" ? v : JSON.stringify(v, null, 2)`. -/
def contentOf (v : Json) : String :=
  match v with
  | Json.str s => s
  | _ => stringify2 v

/-- Content slide for one mapping entry `(k, v)`: white background, the
upper-cased provider name as heading, and the result text — stringified
first when not a string — truncated at 3500 characters with a trailing
ellipsis line. -/
def contentSlide (k : String) (v : Json) : Slide :=
  let content := contentOf v
  let truncated :=
    if content.length > 3500 then jsSlice content 3500 ++ "\n..." else content
  { background := "FFFFFF",
    texts := [
      (jsToUpper k,
        { x := 0.5, y := 0.5, w := 9, fontSize := 32, bold := true,
          color := "1F2937" }),
      (truncated,
        { x := 0.5, y := 1.2, w := 9, h := some 5.3, fontSize := 11,
          color := "374151", wrap := true, fontFace := some "Courier New" })] }

/-- The deck handed to the rendering collaborator: presentation
metadata and the slide sequence (title slide first, then one content
slide per mapping entry in insertion order). -/
structure Deck where
  title : String
  subject : String
  creator : String
  slides : List Slide

/-- Deck assembly of the handler. -/
def buildDeck (prompt : String) (results : List (String × Json)) : Deck :=
  { title := "AI Aggregation Results",
    subject := prompt,
    creator := "Telecom Prompt Generator",
    slides := titleSlide prompt
      :: results.map (fun kv => contentSlide kv.1 kv.2) }

/-- An HTTP response: status code and JSON body. -/
structure HttpResponse where
  status : Nat
  body : Json

/-- Observable behaviour of one aggregate request: the response, the
provider-call event trace, and the deck built (if any). -/
structure HandlerOutput where
  response : HttpResponse
  events : List Ev
  deck : Option Deck

/-- Error message of the no-keys branch (logging variant; the other
variant shortens it to its first clause — no claim depends on the exact
text). -/
def noKeysMsg : String :=
  "No API keys configured. Please set at least one of: OPENAI_API_KEY, GEMINI_API_KEY, CLAUDE_API_KEY, PERPLEXITY_API_KEY"

/-- Translation of the `POST /api/aggregate` handler.  `render` is the
external rendering collaborator composed with base64 transport encoding
(`pres.write` then `Buffer.from(buffer).toString`), `now` is
`new Date().getTime()`, and `prompt` is the destructured
`req.body.prompt` (scoped to absent-or-string request bodies, the only
shapes the claims concern).  The top-level catch of the source is
unreachable here because deck assembly and encoding are total in the
model. -/
def aggregate (render : Deck → String) (env : Env) (oc : Outcomes)
    (now : Nat) (prompt : Option String) : HandlerOutput :=
  if strTruthy prompt = false then
    { response := { status := 400,
                    body := Json.obj [("error", Json.str "prompt required")] },
      events := [], deck := none }
  else
    let results := buildResults env oc
    if results.length = 0 then
      { response := { status := 400,
                      body := Json.obj [("error", Json.str noKeysMsg)] },
        events := providerEvents env, deck := none }
    else
      let deck := buildDeck (prompt.getD "") results
      { response := { status := 200,
                      body := Json.obj [
                        ("ok", Json.bool true),
                        ("pptx", Json.str (render deck)),
                        ("fileName",
                          Json.str ("ai-aggregation-" ++ toString now ++ ".pptx"))] },
        events := providerEvents env, deck := some deck }

/-- Translation of the `GET /health` handler:
`res.json(\x7b status: "ok", port: process.env.PORT || 3001 \x7d)`. -/
def healthHandler (env : Env) : HttpResponse :=
  { status := 200,
    body := Json.obj [
      ("status", Json.str "ok"),
      ("port", if strTruthy env.PORT then Json.str (env.PORT.getD "")
               else Json.num 3001)] }

/-- Whether a JSON value is a number. -/
def Json.isNum : Json → Bool
  | Json.num _ => true
  | _ => false

/-- Oracle outcome of the named provider (claim-level glue). -/
def outcomeOf (oc : Outcomes) : String → CallOutcome
  | "chatgpt" => oc.chatgpt
  | "gemini" => oc.gemini
  | "claude" => oc.claude
  | "perplexity" => oc.perplexity
  | _ => CallOutcome.throws ""

/-- Extraction function of the named provider (claim-level glue). -/
def extractOf : String → (Json → Except String (Option Json))
  | "chatgpt" => extractChatgpt
  | "gemini" => extractGemini
  | "claude" => extractClaude
  | "perplexity" => extractPerplexity
  | _ => fun _ => Except.ok none

/-! ### Structural lemmas about the handler -/

theorem results_keys (env : Env) (oc : Outcomes) :
    (buildResults env oc).map Prod.fst = attemptedProviders env := by
  unfold buildResults attemptedProviders
  split_ifs <;> rfl

theorem results_length (env : Env) (oc : Outcomes) :
    (buildResults env oc).length = (attemptedProviders env).length := by
  rw [← results_keys env oc, List.length_map]

theorem results_nil (env : Env) (oc : Outcomes)
    (h : attemptedProviders env = []) : buildResults env oc = [] := by
  have hk := results_keys env oc
  rw [h] at hk
  exact List.map_eq_nil_iff.mp hk

theorem providerEvents_flatMap (env : Env) :
    providerEvents env =
      (attemptedProviders env).flatMap (fun p => [Ev.callStart p, Ev.callSettle p]) := by
  unfold providerEvents attemptedProviders
  split_ifs <;> rfl

theorem events_nil (env : Env) (h : attemptedProviders env = []) :
    providerEvents env = [] := by
  rw [providerEvents_flatMap, h]
  rfl

theorem lookup_chatgpt (env : Env) (oc : Outcomes)
    (h : strTruthy env.OPENAI_API_KEY = true) :
    List.lookup "chatgpt" (buildResults env oc) =
      some (providerResult extractChatgpt oc.chatgpt) := by
  unfold buildResults
  rw [if_pos h]
  rfl

theorem lookup_gemini (env : Env) (oc : Outcomes)
    (h : strTruthy env.GEMINI_API_KEY = true) :
    List.lookup "gemini" (buildResults env oc) =
      some (providerResult extractGemini oc.gemini) := by
  unfold buildResults
  cases h1 : strTruthy env.OPENAI_API_KEY <;>
    simp only [h1, h, if_true, if_false, Bool.false_eq_true, if_neg, reduceIte] <;> rfl

theorem lookup_claude (env : Env) (oc : Outcomes)
    (h : strTruthy env.CLAUDE_API_KEY = true) :
    List.lookup "claude" (buildResults env oc) =
      some (providerResult extractClaude oc.claude) := by
  unfold buildResults
  cases h1 : strTruthy env.OPENAI_API_KEY <;> cases h2 : strTruthy env.GEMINI_API_KEY <;>
    simp only [h1, h2, h, reduceIte] <;> rfl

theorem lookup_perplexity (env : Env) (oc : Outcomes)
    (h : strTruthy env.PERPLEXITY_API_KEY = true) :
    List.lookup "perplexity" (buildResults env oc) =
      some (providerResult extractPerplexity oc.perplexity) := by
  unfold buildResults
  cases h1 : strTruthy env.OPENAI_API_KEY <;> cases h2 : strTruthy env.GEMINI_API_KEY <;>
    cases h3 : strTruthy env.CLAUDE_API_KEY <;>
    simp only [h1, h2, h3, h, reduceIte] <;> rfl

theorem mem_attempted (env : Env) (p : String) (hp : p ∈ attemptedProviders env) :
    (p = "chatgpt" ∧ strTruthy env.OPENAI_API_KEY = true) ∨
    (p = "gemini" ∧ strTruthy env.GEMINI_API_KEY = true) ∨
    (p = "claude" ∧ strTruthy env.CLAUDE_API_KEY = true) ∨
    (p = "perplexity" ∧ strTruthy env.PERPLEXITY_API_KEY = true) := by
  unfold attemptedProviders at hp
  cases h1 : strTruthy env.OPENAI_API_KEY <;> cases h2 : strTruthy env.GEMINI_API_KEY <;>
    cases h3 : strTruthy env.CLAUDE_API_KEY <;> cases h4 : strTruthy env.PERPLEXITY_API_KEY <;>
    simp_all

theorem lookup_attempted (env : Env) (oc : Outcomes) (p : String)
    (hp : p ∈ attemptedProviders env) :
    List.lookup p (buildResults env oc) =
      some (providerResult (extractOf p) (outcomeOf oc p)) := by
  rcases mem_attempted env p hp with ⟨rfl, h⟩ | ⟨rfl, h⟩ | ⟨rfl, h⟩ | ⟨rfl, h⟩
  · exact lookup_chatgpt env oc h
  · exact lookup_gemini env oc h
  · exact lookup_claude env oc h
  · exact lookup_perplexity env oc h

theorem aggregate_success_response (render : Deck → String) (env : Env) (oc : Outcomes)
    (now : Nat) (prompt : Option String)
    (hp : strTruthy prompt = true) (hk : attemptedProviders env ≠ []) :
    aggregate render env oc now prompt =
      { response := { status := 200,
                      body := Json.obj [
                        ("ok", Json.bool true),
                        ("pptx", Json.str (render (buildDeck (prompt.getD "") (buildResults env oc)))),
                        ("fileName", Json.str ("ai-aggregation-" ++ toString now ++ ".pptx"))] },
        events := providerEvents env,
        deck := some (buildDeck (prompt.getD "") (buildResults env oc)) } := by
  have hlen : ¬ (buildResults env oc).length = 0 := by
    rw [results_length]
    intro h0
    exact hk (List.length_eq_zero.mp h0)
  unfold aggregate
  rw [hp]
  simp only [Bool.true_eq_false, reduceIte]
  rw [if_neg hlen]

/-! ### Claim C2 -/

/-- Claim C2: for every subset of providers whose credential variables
are configured (truthy) and every combination of provider-call
outcomes, the key list of the result mapping is exactly the attempted
providers in source order — a key is present iff the credential is
configured, and the key list does not depend on the outcome oracle at
all, so failures insert an error-text value rather than omitting the
key. -/
theorem C2_keys_exactly_attempted (env : Env) (oc : Outcomes) :
    (buildResults env oc).map Prod.fst = attemptedProviders env :=
  results_keys env oc

/-! ### Claim C5 -/

/-- Claim C5: a request whose prompt is missing or falsy (for example
the empty string) is answered with status 400 and body
`error: "prompt required"`, the provider-call event trace is empty (no
upstream call is issued) and no deck is built. -/
theorem C5_prompt_required (render : Deck → String) (env : Env) (oc : Outcomes)
    (now : Nat) (prompt : Option String) (h : strTruthy prompt = false) :
    aggregate render env oc now prompt =
      { response := { status := 400,
                      body := Json.obj [("error", Json.str "prompt required")] },
        events := [], deck := none } := by
  unfold aggregate
  rw [h]
  rfl

/-- Witness for C5 at the concrete input of a missing prompt. -/
theorem C5_prompt_required_witness :
    strTruthy (none : Option String) = false ∧
    aggregate (fun _ => "") ⟨none, none, none, none, none⟩
      ⟨CallOutcome.throws "", CallOutcome.throws "", CallOutcome.throws "",
        CallOutcome.throws ""⟩ 0 none =
      { response := { status := 400,
                      body := Json.obj [("error", Json.str "prompt required")] },
        events := [], deck := none } :=
  ⟨rfl, C5_prompt_required _ _ _ 0 none rfl⟩

/-! ### Claim C6 -/

/-- Claim C6: while zero provider credentials are configured, every
request is answered with a 400 error, the provider-call event trace is
empty (no network call), and no deck is built — the error response is
produced before any slide assembly or rendering. -/
theorem C6_no_providers (render : Deck → String) (env : Env) (oc : Outcomes)
    (now : Nat) (prompt : Option String) (h : attemptedProviders env = []) :
    (aggregate render env oc now prompt).response.status = 400 ∧
    (aggregate render env oc now prompt).events = [] ∧
    (aggregate render env oc now prompt).deck = none := by
  have hres := results_nil env oc h
  have hev := events_nil env h
  cases hp : strTruthy prompt <;> simp [aggregate, hp, hres, hev]

/-- Witness for C6 at the concrete all-unset environment. -/
theorem C6_no_providers_witness :
    attemptedProviders ⟨none, none, none, none, none⟩ = [] ∧
    (aggregate (fun _ => "") ⟨none, none, none, none, none⟩
      ⟨CallOutcome.throws "", CallOutcome.throws "", CallOutcome.throws "",
        CallOutcome.throws ""⟩ 0 (some "Explain 5G")).response.status = 400 :=
  ⟨rfl, (C6_no_providers (fun _ => "") ⟨none, none, none, none, none⟩
    ⟨CallOutcome.throws "", CallOutcome.throws "", CallOutcome.throws "",
      CallOutcome.throws ""⟩ 0 (some "Explain 5G") rfl).1⟩

/-! ### Claim C7 -/

theorem jsSlice_length (s : String) (n : Nat) :
    (jsSlice s n).length = min n s.length := by
  show (s.data.take n).length = min n s.length
  exact List.length_take n s.data

/-- Claim C7: the content slide's body text is the result text
verbatim when it has at most 3500 characters, and is exactly the first
3500 characters followed by the ellipsis line otherwise (the heading
being the upper-cased provider key).  The recomposition conjunct shows
the truncated part is precisely the 3500-character prefix of the
text. -/
theorem C7_content_truncation (k : String) (v : Json) :
    ((contentOf v).length ≤ 3500 →
      slideTexts (contentSlide k v) = [jsToUpper k, contentOf v]) ∧
    ((contentOf v).length > 3500 →
      slideTexts (contentSlide k v) =
        [jsToUpper k, jsSlice (contentOf v) 3500 ++ "\n..."] ∧
      (jsSlice (contentOf v) 3500).length = 3500 ∧
      jsSlice (contentOf v) 3500 ++ String.mk ((contentOf v).data.drop 3500) =
        contentOf v) := by
  constructor
  · intro h
    have hn : ¬ (contentOf v).length > 3500 := Nat.not_lt.mpr h
    simp [contentSlide, slideTexts, hn]
  · intro h
    refine ⟨by simp [contentSlide, slideTexts, h], ?_, ?_⟩
    · rw [jsSlice_length]
      omega
    · show String.mk ((contentOf v).data.take 3500 ++ (contentOf v).data.drop 3500) =
        contentOf v
      rw [List.take_append_drop]

/-- Witness for C7: one result under the limit reproduced verbatim, and
a 3501-character result truncated to its 3500-character prefix plus the
ellipsis line. -/
theorem C7_content_truncation_witness :
    slideTexts (contentSlide "chatgpt" (Json.str "5G is...")) =
      ["CHATGPT", "5G is..."] ∧
    slideTexts (contentSlide "gemini"
        (Json.str (String.mk (List.replicate 3501 'a')))) =
      ["GEMINI", String.mk (List.replicate 3500 'a') ++ "\n..."] := by
  constructor
  · exact (C7_content_truncation "chatgpt" (Json.str "5G is...")).1 (by decide)
  · have hlen : (contentOf (Json.str (String.mk (List.replicate 3501 'a')))).length > 3500 := by
      have he : (contentOf (Json.str (String.mk (List.replicate 3501 'a')))).length = 3501 := by
        show (List.replicate 3501 'a').length = 3501
        exact List.length_replicate 3501 'a'
      omega
    have h := ((C7_content_truncation "gemini"
      (Json.str (String.mk (List.replicate 3501 'a')))).2 hlen).1
    have hsl : jsSlice (contentOf (Json.str (String.mk (List.replicate 3501 'a')))) 3500 =
        String.mk (List.replicate 3500 'a') := by
      show String.mk ((List.replicate 3501 'a').take 3500) = String.mk (List.replicate 3500 'a')
      rw [List.take_replicate]
      norm_num
    rw [hsl] at h
    exact h

/-! ### Claim C8 -/

/-- Claim C8: the title slide's subtitle is
`Prompt: ` ++ the 100-character prefix of the prompt ++ `...`; the
ellipsis marker is appended unconditionally (it appears in the equation
for every prompt, also those shorter than 100 characters), and the
prompt-derived portion before the marker has at most 100 characters and
is a prefix of the original prompt (the recomposition conjunct
exhibits the remainder). -/
theorem C8_title_subtitle (prompt : String) :
    slideTexts (titleSlide prompt) =
      ["AI Aggregation Results", "Prompt: " ++ jsSlice prompt 100 ++ "..."] ∧
    (jsSlice prompt 100).length ≤ 100 ∧
    jsSlice prompt 100 ++ String.mk (prompt.data.drop 100) = prompt := by
  refine ⟨rfl, ?_, ?_⟩
  · rw [jsSlice_length]
    omega
  · show String.mk (prompt.data.take 100 ++ prompt.data.drop 100) = prompt
    rw [List.take_append_drop]

/-! ### Claim C1 -/

def c1Env : Env := { OPENAI_API_KEY := some "k", GEMINI_API_KEY := some "k" }

/-- Decoded JSON body of a non-2xx (HTTP 401) provider response. -/
def c1Body : Json :=
  Json.obj [("error", Json.obj [("message", Json.str "Invalid API key")])]

def c1Oc : Outcomes :=
  { chatgpt := CallOutcome.ok 401 c1Body,
    gemini := CallOutcome.throws "fetch failed",
    claude := CallOutcome.throws "unused",
    perplexity := CallOutcome.throws "unused" }

/-- Counterexample to claim C1 as stated: provider chatgpt's call fails
in the claim's sense — the response has the non-2xx status 401 — yet
its recorded result value is the pretty-printed decoded body, whose
first seven characters are not `Error: `.  `fetch` does not reject on
a non-2xx status and the source never inspects `r.status`, so only a
thrown error (network failure or undecodable body) produces the
`Error: ` text. -/
theorem C1_counterexample :
    c1Oc.chatgpt = CallOutcome.ok 401 c1Body ∧
    List.lookup "chatgpt" (buildResults c1Env c1Oc) =
      some (Json.str (stringify2 c1Body)) ∧
    stringify2 c1Body =
      "\x7b\n  \"error\": \x7b\n    \"message\": \"Invalid API key\"\n  \x7d\n\x7d" ∧
    jsSlice (stringify2 c1Body) 7 ≠ "Error: " := by
  refine ⟨rfl, rfl, rfl, by decide⟩

/-- Claim C1 amended: for every attempted provider whose call throws
(network failure or a body that fails to decode — but not a non-2xx
response, which resolves and is recorded as its pretty-printed decoded
body), the recorded result value is exactly `Error: ` followed by the
failure message; every attempted provider's key is present in the
mapping whatever the outcomes; and the overall request still succeeds
with status 200. -/
theorem C1_error_isolation (render : Deck → String) (env : Env) (oc : Outcomes)
    (now : Nat) (prompt : Option String) (p : String) (msg : String)
    (hprompt : strTruthy prompt = true)
    (hp : p ∈ attemptedProviders env)
    (hthrow : outcomeOf oc p = CallOutcome.throws msg) :
    List.lookup p (buildResults env oc) = some (Json.str ("Error: " ++ msg)) ∧
    (∀ q ∈ attemptedProviders env, (List.lookup q (buildResults env oc)).isSome = true) ∧
    (aggregate render env oc now prompt).response.status = 200 := by
  refine ⟨?_, ?_, ?_⟩
  · rw [lookup_attempted env oc p hp, hthrow]
    rfl
  · intro q hq
    rw [lookup_attempted env oc q hq]
    rfl
  · have hk : attemptedProviders env ≠ [] := by
      intro h0
      rw [h0] at hp
      exact absurd hp (List.not_mem_nil p)
    rw [aggregate_success_response render env oc now prompt hprompt hk]

/-- Witness for the amended C1: chatgpt and gemini configured, gemini
throwing `fetch failed`; gemini's entry is the error text, both keys
are present, and the request is answered 200. -/
theorem C1_error_isolation_witness :
    strTruthy (some "Explain 5G" : Option String) = true ∧
    "gemini" ∈ attemptedProviders c1Env ∧
    outcomeOf c1Oc "gemini" = CallOutcome.throws "fetch failed" ∧
    (List.lookup "gemini" (buildResults c1Env c1Oc) =
        some (Json.str ("Error: " ++ "fetch failed")) ∧
      (∀ q ∈ attemptedProviders c1Env,
        (List.lookup q (buildResults c1Env c1Oc)).isSome = true) ∧
      (aggregate (fun _ => "") c1Env c1Oc 0 (some "Explain 5G")).response.status = 200) :=
  ⟨rfl, by decide, rfl,
    C1_error_isolation (fun _ => "") c1Env c1Oc 0 (some "Explain 5G") "gemini"
      "fetch failed" rfl (by decide) rfl⟩

/-! ### Claim C3 -/

/-- Formalization of the claim's concurrency contract on the event
trace of one request: every provider call is launched before any
provider call reaches a terminal outcome, i.e. no call's start waits
on another call's completion. -/
def launchedBeforeAnySettle (evs : List Ev) : Prop :=
  ∀ i j p q, evs.get? i = some (Ev.callStart p) →
    evs.get? j = some (Ev.callSettle q) → i < j

def c3Env : Env := { OPENAI_API_KEY := some "k", GEMINI_API_KEY := some "k" }

/-- Counterexample to claim C3 as stated: with two providers configured
the event trace is strictly sequential — gemini's call starts at index
2, after chatgpt's call has settled at index 1 — so the calls do not
execute concurrently: each provider's call blocks on the previous
provider's completion, because each block awaits its `fetch` inline
before the next block runs. -/
theorem C3_counterexample :
    providerEvents c3Env =
      [Ev.callStart "chatgpt", Ev.callSettle "chatgpt",
        Ev.callStart "gemini", Ev.callSettle "gemini"] ∧
    ¬ launchedBeforeAnySettle (providerEvents c3Env) := by
  refine ⟨rfl, fun h => ?_⟩
  have h21 := h 2 1 "gemini" "chatgpt" rfl rfl
  omega

/-- Claim C3 amended: provider calls execute sequentially in the fixed
source order restricted to the configured providers — the event trace
is, for each attempted provider in turn, its call start immediately
followed by its settling, so each attempted call reaches a terminal
outcome before the next is issued; in particular (second conjunct)
every attempted call has settled by the end of the provider section,
before the handler constructs the result mapping. -/
theorem C3_sequential_calls (env : Env) :
    providerEvents env =
      (attemptedProviders env).flatMap (fun p => [Ev.callStart p, Ev.callSettle p]) ∧
    (∀ p ∈ attemptedProviders env, Ev.callSettle p ∈ providerEvents env) := by
  refine ⟨providerEvents_flatMap env, fun p hp => ?_⟩
  rw [providerEvents_flatMap env, List.mem_flatMap]
  exact ⟨p, hp, by simp⟩

/-- Witness for the amended C3 at a two-provider configuration. -/
theorem C3_sequential_calls_witness :
    "chatgpt" ∈ attemptedProviders c3Env ∧
    Ev.callSettle "chatgpt" ∈ providerEvents c3Env :=
  ⟨by decide, (C3_sequential_calls c3Env).2 "chatgpt" (by decide)⟩

/-! ### Claim C4 -/

def c4Env : Env := { OPENAI_API_KEY := some "k" }

def c4Oc : Outcomes :=
  { chatgpt := CallOutcome.ok 200 (Json.obj [("choices", Json.arr
      [Json.obj [("message", Json.obj [("content", Json.str "5G is...")])]])]),
    gemini := CallOutcome.throws "unused",
    claude := CallOutcome.throws "unused",
    perplexity := CallOutcome.throws "unused" }

/-- Counterexample to claim C4 as stated: on a successful aggregation
the envelope's keys are `ok`, `pptx` and `fileName` — there is no field
named `document`; the base64-encoded rendered deck travels in the field
named `pptx`. -/
theorem C4_counterexample :
    (aggregate (fun _ => "UEsDBA==") c4Env c4Oc 1730000000000
        (some "Explain 5G")).response.status = 200 ∧
    (aggregate (fun _ => "UEsDBA==") c4Env c4Oc 1730000000000
        (some "Explain 5G")).response.body =
      Json.obj [("ok", Json.bool true), ("pptx", Json.str "UEsDBA=="),
        ("fileName", Json.str "ai-aggregation-1730000000000.pptx")] ∧
    jGet "document" (some (aggregate (fun _ => "UEsDBA==") c4Env c4Oc 1730000000000
        (some "Explain 5G")).response.body) = none ∧
    jGet "pptx" (some (aggregate (fun _ => "UEsDBA==") c4Env c4Oc 1730000000000
        (some "Explain 5G")).response.body) = some (Json.str "UEsDBA==") := by
  refine ⟨rfl, rfl, rfl, rfl⟩

/-- Claim C4 amended: on every successful aggregation request the JSON
envelope is exactly `ok` set to `true`, `pptx` carrying the rendered
deck as handed back by the base64-encoding rendering collaborator, and
`fileName` embedding the creation timestamp `now` between the fixed
prefix `ai-aggregation-` and the `.pptx` extension.  The claim's field
name `document` does not exist; the encoded deck is under `pptx`. -/
theorem C4_success_envelope (render : Deck → String) (env : Env) (oc : Outcomes)
    (now : Nat) (prompt : Option String)
    (hprompt : strTruthy prompt = true) (hk : attemptedProviders env ≠ []) :
    (aggregate render env oc now prompt).response =
      { status := 200,
        body := Json.obj [
          ("ok", Json.bool true),
          ("pptx", Json.str (render (buildDeck (prompt.getD "") (buildResults env oc)))),
          ("fileName", Json.str ("ai-aggregation-" ++ toString now ++ ".pptx"))] } := by
  rw [aggregate_success_response render env oc now prompt hprompt hk]

/-- Witness for the amended C4 at a one-provider configuration. -/
theorem C4_success_envelope_witness :
    strTruthy (some "Explain 5G" : Option String) = true ∧
    attemptedProviders c4Env ≠ [] ∧
    (aggregate (fun _ => "UEsDBA==") c4Env c4Oc 5 (some "Explain 5G")).response =
      { status := 200,
        body := Json.obj [
          ("ok", Json.bool true),
          ("pptx", Json.str "UEsDBA=="),
          ("fileName", Json.str "ai-aggregation-5.pptx")] } :=
  ⟨rfl, by decide,
    C4_success_envelope (fun _ => "UEsDBA==") c4Env c4Oc 5 (some "Explain 5G")
      rfl (by decide)⟩

/-! ### Claim C9 -/

/-- Counterexample to claim C9 as stated: with the `PORT` environment
variable set (to the string `8080`), the health body's `port` field is
the string value of that variable, not a number — `process.env.PORT`
is a string and `process.env.PORT || 3001` passes it through
unconverted. -/
theorem C9_counterexample :
    healthHandler { PORT := some "8080" } =
      { status := 200,
        body := Json.obj [("status", Json.str "ok"), ("port", Json.str "8080")] } ∧
    Json.isNum (Json.str "8080") = false :=
  ⟨rfl, rfl⟩

/-- Claim C9 amended: every health request is answered with status 200
and a body whose `status` field is `ok` and whose `port` field is the
`PORT` environment string when that variable is set and non-empty, and
the number 3001 otherwise — a number exactly in the default case.  The
handler is a pure function of the configuration, modelling the absence
of side effects. -/
theorem C9_health (env : Env) :
    (healthHandler env).status = 200 ∧
    jGet "status" (some (healthHandler env).body) = some (Json.str "ok") ∧
    (strTruthy env.PORT = true →
      jGet "port" (some (healthHandler env).body) =
        some (Json.str (env.PORT.getD ""))) ∧
    (strTruthy env.PORT = false →
      jGet "port" (some (healthHandler env).body) = some (Json.num 3001) ∧
      Json.isNum (Json.num 3001) = true) := by
  have hport : jGet "port" (some (healthHandler env).body) =
      some (if strTruthy env.PORT then Json.str (env.PORT.getD "")
            else Json.num 3001) := rfl
  refine ⟨rfl, rfl, ?_, ?_⟩
  · intro h
    rw [hport, if_pos h]
  · intro h
    rw [hport, if_neg (by simp [h])]
    exact ⟨rfl, rfl⟩

/-- Witness for the amended C9 with `PORT` set to `8080`. -/
theorem C9_health_witness :
    (healthHandler { PORT := some "8080" }).status = 200 ∧
    strTruthy (({ PORT := some "8080" } : Env).PORT) = true ∧
    jGet "port" (some (healthHandler { PORT := some "8080" }).body) =
      some (Json.str "8080") :=
  ⟨(C9_health { PORT := some "8080" }).1, rfl,
    (C9_health { PORT := some "8080" }).2.2.1 rfl⟩

/-! ### Claim C10 -/

/-- Claim C10: for every attempted provider whose call resolves with a
decoded body in which that provider's success-path field is present
but falsy (for example the empty string), the recorded result value is
the pretty-printed serialization of the whole decoded body, not the
extracted (empty) text: the `|| JSON.stringify(j, null, 2)` fallback
shared by all four provider blocks fires on any falsy extracted value,
not only on an absent field. -/
theorem C10_falsy_extraction_fallback (env : Env) (oc : Outcomes) (p : String)
    (st : Nat) (j : Json) (ext : Option Json)
    (hp : p ∈ attemptedProviders env)
    (hoc : outcomeOf oc p = CallOutcome.ok st j)
    (hext : extractOf p j = Except.ok ext)
    (hfalsy : truthyOpt ext = false) :
    List.lookup p (buildResults env oc) = some (Json.str (stringify2 j)) := by
  rw [lookup_attempted env oc p hp, hoc]
  simp only [providerResult]
  rw [hext]
  simp [hfalsy]

/-- Decoded gemini body whose success path
`candidates[0].content.parts[0].text` is present but holds the empty
string. -/
def c10Body : Json :=
  Json.obj [("candidates", Json.arr [Json.obj [("content",
    Json.obj [("parts", Json.arr [Json.obj [("text", Json.str "")]])])]])]

def c10Env : Env := { GEMINI_API_KEY := some "g" }

def c10Oc : Outcomes :=
  { chatgpt := CallOutcome.throws "unused",
    gemini := CallOutcome.ok 200 c10Body,
    claude := CallOutcome.throws "unused",
    perplexity := CallOutcome.throws "unused" }

/-- Witness for C10 at the gemini block: the extraction yields the
(falsy) empty string and the recorded value is the pretty-printed
whole body. -/
theorem C10_falsy_extraction_fallback_witness :
    "gemini" ∈ attemptedProviders c10Env ∧
    outcomeOf c10Oc "gemini" = CallOutcome.ok 200 c10Body ∧
    extractOf "gemini" c10Body = Except.ok (some (Json.str "")) ∧
    truthyOpt (some (Json.str "")) = false ∧
    List.lookup "gemini" (buildResults c10Env c10Oc) =
      some (Json.str (stringify2 c10Body)) :=
  ⟨by decide, rfl, rfl, rfl,
    C10_falsy_extraction_fallback c10Env c10Oc "gemini" 200 c10Body
      (some (Json.str "")) (by decide) rfl rfl rfl⟩
